import Mathlib

/-!
Verification of the `async-convert` crate (`src/lib.rs`).

The crate declares two traits and one blanket implementation:

* `TryFromAsync<T>` for `Self`: an associated `Error` type and an async
  method `try_from_async(value: T) -> Result<Self, Self::Error>`.
* `TryIntoAsync<T>` for `Self`: an associated `Error` type and an async
  method `try_into_async(self) -> Result<T, Self::Error>`.
* A blanket impl `impl<T, U> TryIntoAsync<U> for T where U: TryFromAsync<T>`
  with `type Error = U::Error` and
  `try_into_async(self) = U::try_from_async(self).await`.

We embed a trait as an explicit dictionary (a structure bundling the
associated error type with the conversion function); an `impl` becomes a
value of that structure type.  An `async fn` returning
`Result<A, E>` is embedded as a function into `Except E A`: the value the
resolved future yields.  Rust's `i32` is embedded as `Int` (the example
converter only compares against `0`; no overflowing arithmetic occurs).
-/

/-- Dictionary for the Rust trait `TryFromAsync<T>` implemented by `Self`,
from `src/lib.rs` lines 68-75: an associated error type and the conversion
`try_from_async : T -> Result<Self, Error>`. -/
structure TryFromAsync (T Self : Type) where
  Error : Type
  try_from_async : T → Except Error Self

/-- Dictionary for the Rust trait `TryIntoAsync<T>` implemented by `Self`,
from `src/lib.rs` lines 91-98: an associated error type and the conversion
`try_into_async : Self -> Result<T, Error>`. -/
structure TryIntoAsync (Self T : Type) where
  Error : Type
  try_into_async : Self → Except Error T

/-- The blanket implementation `impl<T, U> TryIntoAsync<U> for T where
U: TryFromAsync<T>` from `src/lib.rs` lines 100-111:
`type Error = U::Error` and
`try_into_async(self) = U::try_from_async(self).await`. -/
def blanketTryIntoAsync {T U : Type} (inst : TryFromAsync T U) :
    TryIntoAsync T U where
  Error := inst.Error
  try_into_async := fun self => inst.try_from_async self

/-- The example wrapper `struct GreaterThanZero(i32)` from the crate's doc
example (`src/lib.rs` line 25). -/
structure GreaterThanZero where
  val : Int
deriving DecidableEq, Repr

/-- The fixed error string of the doc example (`src/lib.rs` line 34). -/
def gtzErrorMsg : String :=
  "GreaterThanZero only accepts value superior than zero!"

/-- The doc example `impl TryFromAsync<i32> for GreaterThanZero` from
`src/lib.rs` lines 27-39: `type Error = &'static str`; the body returns
`Err(...)` when `value <= 0` and `Ok(GreaterThanZero(value))` otherwise. -/
def GreaterThanZero.instTryFromAsync : TryFromAsync Int GreaterThanZero where
  Error := String
  try_from_async := fun value =>
    if value ≤ 0 then
      Except.error gtzErrorMsg
    else
      Except.ok ⟨value⟩

/-- The `TryIntoAsync<GreaterThanZero>` implementation for `Int` obtained
from the blanket implementation applied to the doc example. -/
def GreaterThanZero.instTryIntoAsync : TryIntoAsync Int GreaterThanZero :=
  blanketTryIntoAsync GreaterThanZero.instTryFromAsync

/-- C1: for every pair of types (S, T) where T implements the forward
conversion `TryFromAsync<S>`, the derived reverse operation
`try_into_async` on any value of S produces exactly the same result —
success or error, with the same content — as calling `T::try_from_async`
on that value directly. -/
theorem blanket_try_into_eq_try_from (T U : Type)
    (inst : TryFromAsync T U) (v : T) :
    (blanketTryIntoAsync inst).try_into_async v = inst.try_from_async v :=
  rfl

/-- C2: whenever the forward operation `try_from_async` succeeds on a
source value, the derived reverse operation `try_into_async` on that same
value also succeeds, yielding an equal target value. -/
theorem blanket_preserves_success (T U : Type)
    (inst : TryFromAsync T U) (v : T) (t : U)
    (h : inst.try_from_async v = Except.ok t) :
    (blanketTryIntoAsync inst).try_into_async v = Except.ok t :=
  h

/-- Witness for C2: the forward `GreaterThanZero` conversion succeeds on 5,
and the derived reverse conversion succeeds on 5 with the same value. -/
theorem blanket_preserves_success_witness :
    (blanketTryIntoAsync GreaterThanZero.instTryFromAsync).try_into_async 5 =
      Except.ok (GreaterThanZero.mk 5) :=
  blanket_preserves_success Int GreaterThanZero
    GreaterThanZero.instTryFromAsync 5 (GreaterThanZero.mk 5) rfl

/-- C3: whenever the forward operation `try_from_async` rejects a source
value, the derived reverse operation `try_into_async` rejects that same
value with the forward operation's error value unchanged. -/
theorem blanket_preserves_error (T U : Type)
    (inst : TryFromAsync T U) (v : T) (e : inst.Error)
    (h : inst.try_from_async v = Except.error e) :
    (blanketTryIntoAsync inst).try_into_async v = Except.error e :=
  h

/-- Witness for C3: the forward `GreaterThanZero` conversion rejects 0 with
the fixed error string, and the derived reverse conversion rejects 0 with
that exact error string. -/
theorem blanket_preserves_error_witness :
    (blanketTryIntoAsync GreaterThanZero.instTryFromAsync).try_into_async 0 =
      Except.error gtzErrorMsg :=
  blanket_preserves_error Int GreaterThanZero
    GreaterThanZero.instTryFromAsync 0 gtzErrorMsg rfl

/-- C4: the associated `Error` type of the automatically derived reverse
implementation equals the `Error` type of the underlying forward
implementation. -/
theorem blanket_error_type_eq (T U : Type) (inst : TryFromAsync T U) :
    (blanketTryIntoAsync inst).Error = inst.Error :=
  rfl

/-- C5: the doc example converter behaves as specified — input 5 succeeds
wrapping 5, input 0 fails with the fixed descriptive error, and input -3
fails with the same descriptive error. -/
theorem gtz_scenario_a :
    GreaterThanZero.instTryFromAsync.try_from_async 5 =
      Except.ok (GreaterThanZero.mk 5) ∧
    GreaterThanZero.instTryFromAsync.try_from_async 0 =
      Except.error gtzErrorMsg ∧
    GreaterThanZero.instTryFromAsync.try_from_async (-3) =
      Except.error gtzErrorMsg := by
  exact ⟨rfl, rfl, rfl⟩

/-- C6: invoking the doc example via the derived reverse-named form on
input 5 yields exactly the forward call's outcome on 5: success
wrapping 5. -/
theorem gtz_scenario_b :
    GreaterThanZero.instTryIntoAsync.try_into_async 5 =
      GreaterThanZero.instTryFromAsync.try_from_async 5 ∧
    GreaterThanZero.instTryIntoAsync.try_into_async 5 =
      Except.ok (GreaterThanZero.mk 5) := by
  exact ⟨rfl, rfl⟩

/-- C7: invoking the doc example via the derived reverse-named form on
input -1 yields an error value equal to the forward call's error on -1. -/
theorem gtz_scenario_c :
    GreaterThanZero.instTryIntoAsync.try_into_async (-1) =
      GreaterThanZero.instTryFromAsync.try_from_async (-1) ∧
    GreaterThanZero.instTryIntoAsync.try_into_async (-1) =
      Except.error gtzErrorMsg := by
  exact ⟨rfl, rfl⟩

/-- C9: for every integer strictly greater than 0, the doc example
converter succeeds and the wrapped integer equals the input exactly. -/
theorem gtz_positive_preserved (v : Int) (h : 0 < v) :
    GreaterThanZero.instTryFromAsync.try_from_async v =
      Except.ok (GreaterThanZero.mk v) := by
  unfold GreaterThanZero.instTryFromAsync
  simp only [if_neg (not_le.mpr h)]

/-- Witness for C9: the converter succeeds on 7 wrapping 7. -/
theorem gtz_positive_preserved_witness :
    GreaterThanZero.instTryFromAsync.try_from_async 7 =
      Except.ok (GreaterThanZero.mk 7) :=
  gtz_positive_preserved 7 (by decide)

/-- C10: for every pair of integers each at most 0, the doc example
converter rejects both with the same fixed error string, so the rejection
error is independent of which rejected input was supplied. -/
theorem gtz_error_uniform (v1 v2 : Int) (h1 : v1 ≤ 0) (h2 : v2 ≤ 0) :
    GreaterThanZero.instTryFromAsync.try_from_async v1 =
      Except.error gtzErrorMsg ∧
    GreaterThanZero.instTryFromAsync.try_from_async v2 =
      Except.error gtzErrorMsg := by
  unfold GreaterThanZero.instTryFromAsync
  exact ⟨by simp only [if_pos h1], by simp only [if_pos h2]⟩

/-- Witness for C10: the converter rejects both 0 and -5 with the same
fixed error string. -/
theorem gtz_error_uniform_witness :
    GreaterThanZero.instTryFromAsync.try_from_async 0 =
      Except.error gtzErrorMsg ∧
    GreaterThanZero.instTryFromAsync.try_from_async (-5) =
      Except.error gtzErrorMsg :=
  gtz_error_uniform 0 (-5) (by decide) (by decide)
